import Mathlib

/-!
Verification of the trace-calculation and coordinate-mapping pipeline.

Part 1 embeds the bar-trace calculator from src/traces/bar/calc.js.
Part 2 embeds the axis-reference encoder and the axis-referenced-object
(ARO) geometry builders from test/jasmine/assets/domain_ref/components.js,
together with models of the collaborators they require (reference
classification, axis registry, pixel mapping) that are documented by the
specification but whose source files are not part of this snapshot.
-/

/-- JavaScript values as far as the calculator observes them: the `base`
field is tested for truthiness (and for being exactly zero), entries of
the `ids` array are converted with the JavaScript String() function. -/
inductive JsVal where
  | undef : JsVal
  | null : JsVal
  | num : Int → JsVal
  | str : String → JsVal
  | bool : Bool → JsVal
deriving DecidableEq, Repr

/-- JavaScript truthiness of a `JsVal`: undefined, null, 0, the empty
string and false are falsy, everything else is truthy. -/
def jsTruthy : JsVal → Bool
  | JsVal.undef => false
  | JsVal.null => false
  | JsVal.num n => n != 0
  | JsVal.str s => s != ""
  | JsVal.bool b => b

/-- The JavaScript String() conversion restricted to `JsVal`. -/
def jsToString : JsVal → String
  | JsVal.undef => "undefined"
  | JsVal.null => "null"
  | JsVal.num n => toString n
  | JsVal.str s => s
  | JsVal.bool b => if b then "true" else "false"

/-- A bar trace as read by `calc` in src/traces/bar/calc.js: the raw data
arrays `x` and `y`, the `orientation` field (compared against the literal
string "h"), the `base` field, and the optional `ids` array. -/
structure Trace where
  x : List Int
  y : List Int
  orientation : Option String
  base : JsVal
  ids : Option (List JsVal)

/-- The shape of an axis's `makeCalcdata`: it receives the trace, the
field name to read ("x" or "y") and the millisecond-coercion flag, and
returns the coerced data array.  The axes module is an external
collaborator of src/traces/bar/calc.js, so it stays abstract. -/
def MakeCalcdata : Type := Trace → String → Bool → List Int

/-- One calculated-data record: position `p`, size `s` and the optional
stringified `id` (src/traces/bar/calc.js lines 37-43). -/
structure CdRecord where
  p : Int
  s : Int
  id : Option String
deriving DecidableEq, Repr

/-- Line 22 of src/traces/bar/calc.js:
`var msUTC = !!(trace.base || trace.base === 0);`. -/
def msUTCflag (t : Trace) : Bool :=
  jsTruthy t.base || t.base == JsVal.num 0

/-- The size array of `calc` (src/traces/bar/calc.js lines 24-30): the
x data for horizontal traces, the y data otherwise, both through the
owning axis's `makeCalcdata` with the `msUTC` flag. -/
def sizeArray (xa ya : MakeCalcdata) (t : Trace) : List Int :=
  if t.orientation == some "h" then xa t "x" (msUTCflag t) else ya t "y" (msUTCflag t)

/-- The position array of `calc` (src/traces/bar/calc.js lines 24-30):
the y data for horizontal traces, the x data otherwise. -/
def posArray (xa ya : MakeCalcdata) (t : Trace) : List Int :=
  if t.orientation == some "h" then ya t "y" (msUTCflag t) else xa t "x" (msUTCflag t)

/-- The calculator `calc` of src/traces/bar/calc.js (named `barCalc`
because `calc` is reserved in Lean): truncate position and size to the
shorter length (`serieslen`), zip them into records, and attach the
stringified id when the trace has an `ids` array.  The colorscale,
arrays-to-calcdata and selection collaborators enrich trace-level
metadata and records in place without changing `p`, `s` or `id`, so they
do not appear in the record model. -/
def barCalc (xa ya : MakeCalcdata) (t : Trace) : List CdRecord :=
  (List.range (min (posArray xa ya t).length (sizeArray xa ya t).length)).map fun i =>
    { p := (posArray xa ya t).getD i 0,
      s := (sizeArray xa ya t).getD i 0,
      id := t.ids.map fun ids => jsToString (ids.getD i JsVal.undef) }

/-- The body of `calc` with the millisecond flag made an explicit
parameter that is used for building both arrays. -/
def barCalcWithFlag (xa ya : MakeCalcdata) (t : Trace) (m : Bool) : List CdRecord :=
  let size := if t.orientation == some "h" then xa t "x" m else ya t "y" m
  let pos := if t.orientation == some "h" then ya t "y" m else xa t "x" m
  (List.range (min pos.length size.length)).map fun i =>
    { p := pos.getD i 0,
      s := size.getD i 0,
      id := t.ids.map fun ids => jsToString (ids.getD i JsVal.undef) }

/-- A `makeCalcdata` that returns the numeric field arrays unchanged, the
behaviour of a linear axis on already-numeric data. -/
def linearCalcdata : MakeCalcdata := fun t field _ => if field == "x" then t.x else t.y

/-- The trace of end-to-end scenario 1: x has three values, y has two,
vertical orientation. -/
def traceScenario1 : Trace :=
  { x := [1, 2, 3], y := [10, 20], orientation := some "v",
    base := JsVal.undef, ids := none }

theorem barCalc_length (xa ya : MakeCalcdata) (t : Trace) :
    (barCalc xa ya t).length =
      min (posArray xa ya t).length (sizeArray xa ya t).length := by
  simp [barCalc]

theorem barCalc_get (xa ya : MakeCalcdata) (t : Trace) (i : Nat)
    (h : i < (barCalc xa ya t).length) :
    (barCalc xa ya t).get ⟨i, h⟩ =
      { p := (posArray xa ya t).getD i 0,
        s := (sizeArray xa ya t).getD i 0,
        id := t.ids.map fun ids => jsToString (ids.getD i JsVal.undef) } := by
  have h' := h
  rw [barCalc_length] at h'
  simp [barCalc, List.get_eq_getElem]

/-- The trace used to witness the id-attachment claim: same data as
scenario 1 but with an explicit zero base and an ids array. -/
def traceWithIds : Trace :=
  { x := [1, 2], y := [10, 20], orientation := some "v",
    base := JsVal.num 0, ids := some [JsVal.num 7, JsVal.str "b"] }

/-- Claim C1: for every trace the calculated data has length
min(len(position array), len(size array)); the i-th record pairs the
i-th position with the i-th size; and the scenario trace with
x three values long, y two values long and vertical orientation yields
exactly the two records p=1,s=10 and p=2,s=20. -/
theorem barCalc_truncates (xa ya : MakeCalcdata) (t : Trace) :
    (barCalc xa ya t).length =
      min (posArray xa ya t).length (sizeArray xa ya t).length ∧
    (∀ i (h : i < (barCalc xa ya t).length),
      ((barCalc xa ya t).get ⟨i, h⟩).p = (posArray xa ya t).getD i 0 ∧
      ((barCalc xa ya t).get ⟨i, h⟩).s = (sizeArray xa ya t).getD i 0) ∧
    barCalc linearCalcdata linearCalcdata traceScenario1 =
      [{ p := 1, s := 10, id := none }, { p := 2, s := 20, id := none }] := by
  refine ⟨barCalc_length xa ya t, fun i h => ?_, by decide⟩
  rw [barCalc_get]
  exact ⟨rfl, rfl⟩

/-- Witness for C1 at the scenario trace: two records, the first pairing
position 1 with size 10. -/
theorem barCalc_truncates_witness :
    ((barCalc linearCalcdata linearCalcdata traceScenario1).get ⟨0, by decide⟩).p =
      (posArray linearCalcdata linearCalcdata traceScenario1).getD 0 0 :=
  ((barCalc_truncates linearCalcdata linearCalcdata traceScenario1).2.1 0 (by decide)).1

/-- Claim C7: the orientation choice is fixed once per trace: when
orientation is the literal "h" the size array comes from the x field via
the x-axis's makeCalcdata and the position array from the y field via the
y-axis's makeCalcdata; for any other orientation value the roles are
reversed. -/
theorem barCalc_orientation (xa ya : MakeCalcdata) (t : Trace) :
    (t.orientation = some "h" →
      sizeArray xa ya t = xa t "x" (msUTCflag t) ∧
      posArray xa ya t = ya t "y" (msUTCflag t)) ∧
    (t.orientation ≠ some "h" →
      sizeArray xa ya t = ya t "y" (msUTCflag t) ∧
      posArray xa ya t = xa t "x" (msUTCflag t)) := by
  constructor <;> intro h <;> simp [sizeArray, posArray, h]

/-- Witness for C7 at the vertical scenario trace: size from y, position
from x. -/
theorem barCalc_orientation_witness :
    sizeArray linearCalcdata linearCalcdata traceScenario1 =
      linearCalcdata traceScenario1 "y" (msUTCflag traceScenario1) ∧
    posArray linearCalcdata linearCalcdata traceScenario1 =
      linearCalcdata traceScenario1 "x" (msUTCflag traceScenario1) :=
  (barCalc_orientation linearCalcdata linearCalcdata traceScenario1).2 (by decide)

/-- Claim C8: the millisecond-coercion flag is true exactly when the
trace's base is truthy or is exactly zero, and the identical flag value
is used for building both the position array and the size array. -/
theorem barCalc_msUTC (xa ya : MakeCalcdata) (t : Trace) :
    (msUTCflag t = true ↔ (jsTruthy t.base = true ∨ t.base = JsVal.num 0)) ∧
    barCalc xa ya t = barCalcWithFlag xa ya t (msUTCflag t) := by
  constructor
  · simp [msUTCflag]
  · rfl

/-- Claim C9: when the trace has an ids array, the i-th record's id is
the stringified i-th id; when it has none, no record carries an id. -/
theorem barCalc_ids (xa ya : MakeCalcdata) (t : Trace) :
    (∀ ids, t.ids = some ids → ∀ i (h : i < (barCalc xa ya t).length),
      ((barCalc xa ya t).get ⟨i, h⟩).id =
        some (jsToString (ids.getD i JsVal.undef))) ∧
    (t.ids = none → ∀ i (h : i < (barCalc xa ya t).length),
      ((barCalc xa ya t).get ⟨i, h⟩).id = none) := by
  constructor
  · intro ids hids i h
    rw [barCalc_get, hids]
    rfl
  · intro hnone i h
    rw [barCalc_get, hnone]
    rfl

/-- Witness for C9: the first record of the ids-bearing trace carries the
stringified first id. -/
theorem barCalc_ids_witness :
    ((barCalc linearCalcdata linearCalcdata traceWithIds).get ⟨0, by decide⟩).id =
      some (jsToString ([JsVal.num 7, JsVal.str "b"].getD 0 JsVal.undef)) :=
  (barCalc_ids linearCalcdata linearCalcdata traceWithIds).1 _ rfl 0 (by decide)

/-- The characters of the literal suffix " domain" used by the reference
convention. -/
def domainSuffix : List Char := [' ', 'd', 'o', 'm', 'a', 'i', 'n']

/-- Whether a reference string ends with the literal suffix " domain". -/
def endsWithDomain (s : String) : Bool :=
  decide (7 ≤ s.data.length) && s.data.drop (s.data.length - 7) == domainSuffix

/-- A reference string with the trailing " domain" suffix removed. -/
def stripDomain (s : String) : String :=
  String.mk (s.data.take (s.data.length - 7))

/-- The four reference kinds of the coordinate-reference data model. -/
inductive RefType where
  | range : RefType
  | domain : RefType
  | paper : RefType
  | pixel : RefType
deriving DecidableEq, Repr

/-- Modelled from the spec: the reference classifier `Axes.getRefType`
(src/plots/cartesian/axes.js) that components.js requires is not part of
this snapshot.  Per the spec a reference string is classified into one of
range, domain, paper and pixel: the literal "paper" is paper, the literal
"pixel" (legal only for annotation arrow offsets) is pixel, a string
ending with the literal suffix " domain" is domain, and anything else is
range against the string itself as axis id. -/
def getRefType (ar : String) : RefType :=
  if ar = "paper" then RefType.paper
  else if ar = "pixel" then RefType.pixel
  else if endsWithDomain ar then RefType.domain
  else RefType.range

/-- The result of classifying a reference string: its kind plus the
extracted axis id for the range and domain kinds. -/
structure Classified where
  kind : RefType
  axisId : Option String
deriving DecidableEq, Repr

/-- Modelled from the spec: the classification function of spec section
4.2, returning the kind together with the associated axis id ("paper" is
paper with no axis; a " domain" suffix is domain with the suffix
stripped; anything else is range with the string itself). -/
def classify (s : String) : Classified :=
  if s = "paper" then { kind := RefType.paper, axisId := none }
  else if endsWithDomain s then { kind := RefType.domain, axisId := some (stripDomain s) }
  else { kind := RefType.range, axisId := some s }

/-- The reference-string encoder `makeAxRef` of components.js lines
60-76: a range reference is the axis id itself, a domain reference is the
axis id followed by " domain", a paper reference is the literal "paper",
and any other ref tag throws. -/
def makeAxRef (axid : String) (ref : String) : Except String String :=
  if ref = "range" then Except.ok axid
  else if ref = "domain" then Except.ok (axid ++ " domain")
  else if ref = "paper" then Except.ok "paper"
  else Except.error ("Bad axis type (ref): " ++ ref)

/-- Well-formed cartesian axis ids as used throughout the repository: the
letter x or y followed by digits only (x, y, x2, y2, ...). -/
def isAxId (s : String) : Bool :=
  match s.data with
  | [] => false
  | c :: rest => (c == 'x' || c == 'y') && rest.all (fun d => d.isDigit)

/-- An axis as the pixel-mapping model needs it: its type string, its
numeric range (already in log10 units when the type is log), the
fractional domain it occupies inside the plotting area, and its
orientation letter. -/
structure AxisModel where
  typ : String
  r0 : Rat
  r1 : Rat
  d0 : Rat
  d1 : Rat
  letter : Char

/-- Modelled from the spec: the layout state that the pixel-mapping
helpers (the pixel_calc test asset, not part of this snapshot) read:
canvas size, margins, the axis registry keyed by axis id, and the log10
transform.  Exact log10 is not representable over the rationals, so the
model carries it as an opaque-to-the-theorems function field; every
claim here concerns only where the transform is or is not applied. -/
structure LayoutModel where
  width : Rat
  height : Rat
  ml : Rat
  mr : Rat
  mt : Rat
  mb : Rat
  axes : List (String × AxisModel)
  log10 : Rat → Rat

/-- A fraction of the plotting area mapped to canvas pixels: x fractions
grow rightward from the left margin, y fractions grow upward from the
bottom margin (SVG pixel y grows downward, hence the flip). -/
def fracToPixel (L : LayoutModel) (letter : Char) (f : Rat) : Rat :=
  if letter == 'y' then L.height - L.mb - f * (L.height - L.mt - L.mb)
  else L.ml + f * (L.width - L.ml - L.mr)

/-- Modelled from the spec: pixelCalc.mapDomainToPixel, mapping a
fraction of the axis's own domain onto the pixel span the axis occupies
inside the plotting area. -/
def mapDomainToPixel (L : LayoutModel) (ax : AxisModel) (f : Rat) : Rat :=
  fracToPixel L ax.letter (ax.d0 + f * (ax.d1 - ax.d0))

/-- Modelled from the spec: pixelCalc.mapRangeToPixel, mapping a data
value through the axis range onto the axis's pixel span; the log10
transform is applied first exactly when the axis type is log and the
nolog flag is not set. -/
def mapRangeToPixel (L : LayoutModel) (ax : AxisModel) (v : Rat) (nolog : Bool) : Rat :=
  let w := if ax.typ == "log" && !nolog then L.log10 v else v
  mapDomainToPixel L ax ((w - ax.r0) / (ax.r1 - ax.r0))

/-- Modelled from the spec: pixelCalc.mapPaperToPixel, mapping a paper
fraction over the whole plotting area, independent of any axis. -/
def mapPaperToPixel (L : LayoutModel) (letter : Char) (f : Rat) : Rat :=
  fracToPixel L letter f

/-- An axis-referenced object carrying the union of the fields that
components.js reads: the per-coordinate reference strings, the shape
coordinates x0/x1/y0/y1, the anchor point x/y, the annotation arrow
fields ax/ay with their references, and the image size and anchors. -/
structure ARO where
  xref : String := ""
  yref : String := ""
  x0 : Rat := 0
  x1 : Rat := 0
  y0 : Rat := 0
  y1 : Rat := 0
  x : Rat := 0
  y : Rat := 0
  ax : Rat := 0
  ay : Rat := 0
  axref : String := ""
  ayref : String := ""
  sizex : Rat := 0
  sizey : Rat := 0
  xanchor : String := ""
  yanchor : String := ""

/-- The dynamic coordinate lookup aro-bracket-c of components.js. -/
def getCoord (aro : ARO) (c : String) : Rat :=
  if c == "x0" then aro.x0
  else if c == "x1" then aro.x1
  else if c == "y0" then aro.y0
  else if c == "y1" then aro.y1
  else if c == "x" then aro.x
  else if c == "y" then aro.y
  else if c == "ax" then aro.ax
  else if c == "ay" then aro.ay
  else 0

/-- The dynamic reference lookup aro-bracket-axref of components.js,
where axref is the string "xref" or "yref". -/
def getRefStr (aro : ARO) (axref : String) : String :=
  if axref == "xref" then aro.xref
  else if axref == "yref" then aro.yref
  else ""

/-- The axis id named by a reference string: the string itself for a
range reference, the string without the " domain" suffix for a domain
reference (the id2name resolution step of the axis registry, modelled
from the spec since axis_ids.js is not part of this snapshot). -/
def refAxisId (ref : String) : String :=
  if endsWithDomain ref then stripDomain ref else ref

/-- Axis registry lookup by axis id. -/
def lookupAxis (L : LayoutModel) (axid : String) : Option AxisModel :=
  (L.axes.find? (fun p => p.1 == axid)).map (fun p => p.2)

/-- `mapAROCoordToPixel` of components.js lines 285-302: classify the
object's reference string for the requested letter, add the optional
offset to the coordinate, then dispatch to the range, domain or paper
pixel mapping; a pixel reference (and an unknown axis) yields no value,
matching the undefined result of the original. -/
def mapAROCoordToPixel (L : LayoutModel) (axref : String) (aro : ARO)
    (c : String) (offset : Option Rat) (nolog : Bool) : Option Rat :=
  match getRefType (getRefStr aro axref) with
  | RefType.range => (lookupAxis L (refAxisId (getRefStr aro axref))).map fun ax =>
      mapRangeToPixel L ax (getCoord aro c + offset.getD 0) nolog
  | RefType.domain => (lookupAxis L (refAxisId (getRefStr aro axref))).map fun ax =>
      mapDomainToPixel L ax (getCoord aro c + offset.getD 0)
  | RefType.paper =>
      some (mapPaperToPixel L (axref.data.headD 'x') (getCoord aro c + offset.getD 0))
  | RefType.pixel => none

/-- A bounding box in top-left-origin pixel space; fields are optional
because a coordinate whose axis cannot be resolved has no pixel value. -/
structure OBBox where
  x : Option Rat
  y : Option Rat
  width : Option Rat
  height : Option Rat
deriving DecidableEq, Repr

/-- Subtraction lifted to optional pixel values. -/
def osub : Option Rat → Option Rat → Option Rat
  | some a, some b => some (a - b)
  | _, _ => none

/-- Addition lifted to optional pixel values. -/
def oadd : Option Rat → Option Rat → Option Rat
  | some a, some b => some (a + b)
  | _, _ => none

/-- `shapeToBBox` of components.js lines 306-321: x from x0, the second
x edge from x1, y from y1 (the swap: y0 is the bottom-left corner, SVG
boxes name the top-left one), the second y edge from y0, and the
width/height as the differences. -/
def shapeToBBox (L : LayoutModel) (aro : ARO) : OBBox :=
  let x := mapAROCoordToPixel L "xref" aro "x0" none false
  let x1 := mapAROCoordToPixel L "xref" aro "x1" none false
  let y := mapAROCoordToPixel L "yref" aro "y1" none false
  let y1 := mapAROCoordToPixel L "yref" aro "y0" none false
  { x := x, y := y, width := osub x1 x, height := osub y1 y }

/-- The xanchor switch of `imageToBBox` (components.js lines 331-346):
the pixel pair (x0, x1) for the recognized anchors, an error otherwise;
every coordinate is mapped with the nolog flag set. -/
def imageXPair (L : LayoutModel) (img : ARO) : Except String (Option Rat × Option Rat) :=
  if img.xanchor == "left" then
    Except.ok (mapAROCoordToPixel L "xref" img "x" none true,
      mapAROCoordToPixel L "xref" img "x" (some img.sizex) true)
  else if img.xanchor == "right" then
    Except.ok (mapAROCoordToPixel L "xref" img "x" (some (-img.sizex)) true,
      mapAROCoordToPixel L "xref" img "x" none true)
  else if img.xanchor == "center" then
    Except.ok (mapAROCoordToPixel L "xref" img "x" (some (-img.sizex * (1 / 2))) true,
      mapAROCoordToPixel L "xref" img "x" (some (img.sizex * (1 / 2))) true)
  else Except.error ("Bad xanchor: " ++ img.xanchor)

/-- The yanchor switch of `imageToBBox` (components.js lines 347-362):
the pixel pair (y0, y1), both measured from the bottom of the plot, for
the recognized anchors, an error otherwise. -/
def imageYPair (L : LayoutModel) (img : ARO) : Except String (Option Rat × Option Rat) :=
  if img.yanchor == "bottom" then
    Except.ok (mapAROCoordToPixel L "yref" img "y" none true,
      mapAROCoordToPixel L "yref" img "y" (some img.sizey) true)
  else if img.yanchor == "top" then
    Except.ok (mapAROCoordToPixel L "yref" img "y" (some (-img.sizey)) true,
      mapAROCoordToPixel L "yref" img "y" none true)
  else if img.yanchor == "middle" then
    Except.ok (mapAROCoordToPixel L "yref" img "y" (some (-img.sizey * (1 / 2))) true,
      mapAROCoordToPixel L "yref" img "y" (some (img.sizey * (1 / 2))) true)
  else Except.error ("Bad yanchor: " ++ img.yanchor)

/-- `imageToBBox` of components.js lines 323-371: the anchor decides
which offsets of the stored point give the two edges on each axis, an
unrecognized anchor throws, and the box fields are assembled with the
vertical swap (y1 is the top edge pixel because larger data y is higher
on screen, so bbox.y is y1 and bbox.height is y0 minus y1). -/
def imageToBBox (L : LayoutModel) (img : ARO) : Except String OBBox :=
  match imageXPair L img with
  | Except.error e => Except.error e
  | Except.ok xpair =>
    match imageYPair L img with
    | Except.error e => Except.error e
    | Except.ok ypair =>
      Except.ok
        { x := xpair.1
          width := osub xpair.2 xpair.1
          y := ypair.2
          height := osub ypair.1 ypair.2 }

/-- The per-axis arrow-mode decision of annotationTest (components.js
lines 182-185, x side): the arrow endpoint is a pixel-relative delta
when the arrow reference classifies as pixel or its kind differs from
the position reference's kind. -/
def annotationArrowXPixelMode (anno : ARO) : Bool :=
  getRefType anno.axref == RefType.pixel || getRefType anno.axref != getRefType anno.xref

/-- The per-axis arrow-mode decision of annotationTest (components.js
lines 186-189, y side). -/
def annotationArrowYPixelMode (anno : ARO) : Bool :=
  getRefType anno.ayref == RefType.pixel || getRefType anno.ayref != getRefType anno.yref

/-- The expected x extent of the arrow in pixels (components.js lines
219-226): the raw ax value when in pixel mode, otherwise the mapped ax
coordinate minus the mapped anchor. -/
def annotationArrowXPixels (L : LayoutModel) (anno : ARO) : Option Rat :=
  if annotationArrowXPixelMode anno then some anno.ax
  else
    osub (mapAROCoordToPixel L "xref" anno "ax" (some 0) true)
      (mapAROCoordToPixel L "xref" anno "x" (some 0) true)

/-- The expected y extent of the arrow in pixels (components.js lines
227-234). -/
def annotationArrowYPixels (L : LayoutModel) (anno : ARO) : Option Rat :=
  if annotationArrowYPixelMode anno then some anno.ay
  else
    osub (mapAROCoordToPixel L "yref" anno "ay" (some 0) true)
      (mapAROCoordToPixel L "yref" anno "y" (some 0) true)

/-- The expected pixel x of the arrow endpoint: the mapped anchor plus
the arrow's pixel extent. -/
def annotationArrowEndpointX (L : LayoutModel) (anno : ARO) : Option Rat :=
  oadd (mapAROCoordToPixel L "xref" anno "x" (some 0) true) (annotationArrowXPixels L anno)

/-- The expected pixel y of the arrow endpoint measured from the bottom
of the plot. -/
def annotationArrowEndpointY (L : LayoutModel) (anno : ARO) : Option Rat :=
  oadd (mapAROCoordToPixel L "yref" anno "y" (some 0) true) (annotationArrowYPixels L anno)

/-- The input preparation of annotationTest (components.js lines
172-179): log10 is taken of a coordinate exactly when its own reference
is of range kind and the matching axis type is log, so pixel-referenced
arrow offsets are never transformed. -/
def annotationLogPrep (lg : Rat → Rat) (xaxistype yaxistype : String) (anno : ARO) : ARO :=
  { anno with
    x := if getRefType anno.xref == RefType.range && xaxistype == "log" then lg anno.x else anno.x
    ax := if getRefType anno.axref == RefType.range && xaxistype == "log" then lg anno.ax else anno.ax
    y := if getRefType anno.yref == RefType.range && yaxistype == "log" then lg anno.y else anno.y
    ay := if getRefType anno.ayref == RefType.range && yaxistype == "log" then lg anno.ay else anno.ay }

/-- A concrete layout for counterexamples and witnesses: a 500 by 400
canvas with no margins and one linear x axis and one linear y axis, each
with range 0 to 10 over the full plotting area. -/
def cexLayout : LayoutModel :=
  { width := 500
    height := 400
    ml := 0
    mr := 0
    mt := 0
    mb := 0
    axes := [("x", { typ := "linear", r0 := 0, r1 := 10, d0 := 0, d1 := 1, letter := 'x' }),
      ("y", { typ := "linear", r0 := 0, r1 := 10, d0 := 0, d1 := 1, letter := 'y' })]
    log10 := fun v => v }

/-- A concrete image anchored left and top at the data point (5, 5) with
size 2 by 2 on the concrete layout. -/
def cexImage : ARO :=
  { xref := "x", yref := "y", x := 5, y := 5, sizex := 2, sizey := 2,
    xanchor := "left", yanchor := "top" }

/-- The pixel bounding box of the concrete image: on the concrete layout
a data x maps to 50 times x and a data y maps to 400 minus 40 times y. -/
def cexBBoxLeft : OBBox :=
  { x := some 250, y := some 200, width := some 100, height := some 80 }

/-- The pixel bounding box of the concrete image re-anchored at center:
the left edge moves back by half the mapped size. -/
def cexBBoxCenter : OBBox :=
  { x := some 200, y := some 200, width := some 100, height := some 80 }

/-- A concrete annotation whose arrow x is given in pixels. -/
def cexAnno : ARO :=
  { xref := "x", yref := "y", x := 5, y := 5, ax := 25, ay := 30,
    axref := "pixel", ayref := "y" }

theorem endsWithDomain_mem (s : String) (h : endsWithDomain s = true) : 'n' ∈ s.data := by
  unfold endsWithDomain at h
  rw [Bool.and_eq_true] at h
  have h2 := h.2
  rw [beq_iff_eq] at h2
  have hmem : 'n' ∈ s.data.drop (s.data.length - 7) := by
    rw [h2]
    decide
  exact List.mem_of_mem_drop hmem

theorem axId_chars (a : String) (h : isAxId a = true) :
    ∀ ch ∈ a.data, ch = 'x' ∨ ch = 'y' ∨ ch.isDigit = true := by
  unfold isAxId at h
  intro ch hch
  cases hd : a.data with
  | nil => rw [hd] at hch; exact absurd hch (List.not_mem_nil ch)
  | cons c rest =>
    rw [hd] at h hch
    rw [Bool.and_eq_true, Bool.or_eq_true, beq_iff_eq, beq_iff_eq, List.all_eq_true] at h
    cases hch with
    | head =>
      rcases h.1 with h1 | h1
      · exact Or.inl h1
      · exact Or.inr (Or.inl h1)
    | tail _ hm => exact Or.inr (Or.inr (h.2 ch hm))

theorem axId_not_endsWithDomain (a : String) (h : isAxId a = true) :
    endsWithDomain a = false := by
  cases hew : endsWithDomain a
  · rfl
  · exfalso
    have hn := endsWithDomain_mem a hew
    rcases axId_chars a h 'n' hn with h1 | h1 | h1
    · exact absurd h1 (by decide)
    · exact absurd h1 (by decide)
    · exact absurd h1 (by decide)

theorem axId_ne_paper (a : String) (h : isAxId a = true) : a ≠ "paper" := by
  intro e
  rw [e] at h
  exact absurd h (by decide)

theorem data_append_domain (a : String) : (a ++ " domain").data = a.data ++ domainSuffix := by
  rw [String.data_append]
  rfl

theorem endsWithDomain_append (a : String) : endsWithDomain (a ++ " domain") = true := by
  unfold endsWithDomain
  rw [Bool.and_eq_true, data_append_domain]
  constructor
  · rw [decide_eq_true_iff]
    rw [List.length_append]
    exact Nat.le_add_left 7 a.data.length
  · have hl : (a.data ++ domainSuffix).length - 7 = a.data.length := by
      rw [List.length_append]
      rfl
    rw [hl, List.drop_left]
    exact beq_self_eq_true domainSuffix

theorem stripDomain_append (a : String) : stripDomain (a ++ " domain") = a := by
  unfold stripDomain
  rw [data_append_domain]
  have hl : (a.data ++ domainSuffix).length - 7 = a.data.length := by
    rw [List.length_append]
    rfl
  rw [hl, List.take_left]

theorem append_domain_ne_paper (a : String) : (a ++ " domain") ≠ "paper" := by
  intro e
  have hd := endsWithDomain_append a
  rw [e] at hd
  exact absurd hd (by decide)

/-- Claim C2: reference classification is total and deterministic and
inverts the encoder makeAxRef: for every well-formed axis id, the range
encoding classifies back to range with the same id, the domain encoding
(the id followed by " domain") to domain with the same id, and the paper
encoding (the literal "paper") to paper; in particular for the literal
examples "paper", "x2 domain" and "y". -/
theorem classify_right_inverse (a : String) (h : isAxId a = true) :
    makeAxRef a "range" = Except.ok a ∧
    classify a = { kind := RefType.range, axisId := some a } ∧
    makeAxRef a "domain" = Except.ok (a ++ " domain") ∧
    classify (a ++ " domain") = { kind := RefType.domain, axisId := some a } ∧
    makeAxRef a "paper" = Except.ok "paper" ∧
    classify "paper" = { kind := RefType.paper, axisId := none } ∧
    classify "x2 domain" = { kind := RefType.domain, axisId := some "x2" } ∧
    classify "y" = { kind := RefType.range, axisId := some "y" } := by
  refine ⟨by simp [makeAxRef], ?_, by simp [makeAxRef], ?_, by simp [makeAxRef],
    by decide, by decide, by decide⟩
  · unfold classify
    rw [if_neg (axId_ne_paper a h)]
    rw [if_neg (by rw [axId_not_endsWithDomain a h]; exact Bool.false_ne_true)]
  · unfold classify
    rw [if_neg (append_domain_ne_paper a)]
    rw [if_pos (endsWithDomain_append a), stripDomain_append]

/-- Witness for C2 at the axis id "x2": its domain encoding classifies
back to the domain kind with axis id "x2". -/
theorem classify_right_inverse_witness :
    classify ("x2" ++ " domain") = { kind := RefType.domain, axisId := some "x2" } :=
  (classify_right_inverse "x2" (by decide)).2.2.2.1

theorem getRefType_x : getRefType "x" = RefType.range := by decide

theorem getRefType_y : getRefType "y" = RefType.range := by decide

theorem getRefType_pixel_lit : getRefType "pixel" = RefType.pixel := by decide

theorem refAxisId_x : refAxisId "x" = "x" := by decide

theorem refAxisId_y : refAxisId "y" = "y" := by decide

/-- Claim C5: the shape bounding box in top-left-origin pixel space is
x mapped from x0, width the mapped x1 minus x, y mapped from y1 (the
vertical swap putting the higher data value at the top edge), and height
the mapped y0 minus y. -/
theorem shapeToBBox_fields (L : LayoutModel) (aro : ARO) :
    (shapeToBBox L aro).x = mapAROCoordToPixel L "xref" aro "x0" none false ∧
    (shapeToBBox L aro).width =
      osub (mapAROCoordToPixel L "xref" aro "x1" none false) ((shapeToBBox L aro).x) ∧
    (shapeToBBox L aro).y = mapAROCoordToPixel L "yref" aro "y1" none false ∧
    (shapeToBBox L aro).height =
      osub (mapAROCoordToPixel L "yref" aro "y0" none false) ((shapeToBBox L aro).y) :=
  ⟨rfl, rfl, rfl, rfl⟩

theorem imageToBBox_ok (L : LayoutModel) (img : ARO) (b : OBBox)
    (hb : imageToBBox L img = Except.ok b) :
    ∃ xp yp, imageXPair L img = Except.ok xp ∧ imageYPair L img = Except.ok yp ∧
      b = { x := xp.1, width := osub xp.2 xp.1, y := yp.2, height := osub yp.1 yp.2 } := by
  unfold imageToBBox at hb
  cases hx : imageXPair L img with
  | error e =>
    rw [hx] at hb
    exact absurd hb (by simp)
  | ok xp =>
    rw [hx] at hb
    cases hy : imageYPair L img with
    | error e =>
      rw [hy] at hb
      exact absurd hb (by simp)
    | ok yp =>
      rw [hy] at hb
      cases hb
      exact ⟨xp, yp, rfl, rfl, rfl⟩

theorem mapARO_log10_irrel (L : LayoutModel) (f g : Rat → Rat) (axref : String)
    (aro : ARO) (c : String) (offset : Option Rat) :
    mapAROCoordToPixel { L with log10 := f } axref aro c offset true =
      mapAROCoordToPixel { L with log10 := g } axref aro c offset true := by
  unfold mapAROCoordToPixel
  cases getRefType (getRefStr aro axref) <;>
    simp [lookupAxis, mapRangeToPixel, mapDomainToPixel, mapPaperToPixel, fracToPixel]

/-- Claim C10: the image bounding box is computed with the log transform
disabled for every coordinate, horizontal and vertical alike: the result
is invariant under replacing the layout's log10 transform by any other
function, so no coordinate ever receives it. -/
theorem imageToBBox_log_unaware (L : LayoutModel) (f g : Rat → Rat) (img : ARO) :
    imageToBBox { L with log10 := f } img = imageToBBox { L with log10 := g } img := by
  unfold imageToBBox imageXPair imageYPair
  simp only [mapARO_log10_irrel L f g]

theorem imageToBBox_cexLeft : imageToBBox cexLayout cexImage = Except.ok cexBBoxLeft := by
  simp [imageToBBox, imageXPair, imageYPair, mapAROCoordToPixel, getRefStr, getCoord,
    cexImage, getRefType_x, getRefType_y, refAxisId_x, refAxisId_y, lookupAxis, cexLayout,
    List.find?, mapRangeToPixel, mapDomainToPixel, fracToPixel, osub, cexBBoxLeft]
  all_goals norm_num

theorem imageToBBox_cexCenter :
    imageToBBox cexLayout { cexImage with xanchor := "center" } = Except.ok cexBBoxCenter := by
  simp [imageToBBox, imageXPair, imageYPair, mapAROCoordToPixel, getRefStr, getCoord,
    cexImage, getRefType_x, getRefType_y, refAxisId_x, refAxisId_y, lookupAxis, cexLayout,
    List.find?, mapRangeToPixel, mapDomainToPixel, fracToPixel, osub, cexBBoxCenter]
  all_goals norm_num

/-- Counterexample to claim C3 at a concrete image: with yanchor "top"
on a linear axis the top edge pixel of the box is the mapping of the
anchor itself (pixel 200 here), not the mapping of the anchor offset by
+sizey (pixel 120 here) that the claim's positional top pattern
predicts; the claim's y0/y1 assignments for top actually belong to
bottom. -/
theorem imageToBBox_top_counterexample :
    Except.map OBBox.y (imageToBBox cexLayout cexImage) ≠
      Except.ok (mapAROCoordToPixel cexLayout "yref" cexImage "y"
        (some cexImage.sizey) true) := by
  rw [imageToBBox_cexLeft]
  simp [Except.map, cexBBoxLeft, mapAROCoordToPixel, getRefStr, getCoord, cexImage,
    getRefType_y, refAxisId_y, lookupAxis, cexLayout, List.find?, mapRangeToPixel,
    mapDomainToPixel, fracToPixel]
  norm_num

/-- Claim C3 as amended: the horizontal edges follow the claimed pattern
(left anchors the stored x at the left edge, right at the right edge,
center splits sizex), but for the vertical axis the roles the claim gave
to top and bottom are swapped: bottom anchors the stored y at the bottom
edge (y0 = map(y,+0), y1 = map(y,+sizey)), top anchors it at the top
edge (y0 = map(y,-sizey), y1 = map(y,+0)), middle splits sizey; the box
stores x0 as x, the mapped-x1 minus mapped-x0 as width, y1 as y (the
vertical swap) and mapped-y0 minus mapped-y1 as height; any anchor token
outside the two recognized sets makes the computation fail with an
anchor error. -/
theorem imageToBBox_anchor_edges (L : LayoutModel) (img : ARO) :
    (∀ b, imageToBBox L img = Except.ok b →
      ((img.xanchor = "left" →
        b.x = mapAROCoordToPixel L "xref" img "x" none true ∧
        b.width = osub (mapAROCoordToPixel L "xref" img "x" (some img.sizex) true)
          (mapAROCoordToPixel L "xref" img "x" none true)) ∧
      (img.xanchor = "right" →
        b.x = mapAROCoordToPixel L "xref" img "x" (some (-img.sizex)) true ∧
        b.width = osub (mapAROCoordToPixel L "xref" img "x" none true)
          (mapAROCoordToPixel L "xref" img "x" (some (-img.sizex)) true)) ∧
      (img.xanchor = "center" →
        b.x = mapAROCoordToPixel L "xref" img "x" (some (-img.sizex * (1 / 2))) true ∧
        b.width = osub (mapAROCoordToPixel L "xref" img "x" (some (img.sizex * (1 / 2))) true)
          (mapAROCoordToPixel L "xref" img "x" (some (-img.sizex * (1 / 2))) true)) ∧
      (img.yanchor = "bottom" →
        b.y = mapAROCoordToPixel L "yref" img "y" (some img.sizey) true ∧
        b.height = osub (mapAROCoordToPixel L "yref" img "y" none true)
          (mapAROCoordToPixel L "yref" img "y" (some img.sizey) true)) ∧
      (img.yanchor = "top" →
        b.y = mapAROCoordToPixel L "yref" img "y" none true ∧
        b.height = osub (mapAROCoordToPixel L "yref" img "y" (some (-img.sizey)) true)
          (mapAROCoordToPixel L "yref" img "y" none true)) ∧
      (img.yanchor = "middle" →
        b.y = mapAROCoordToPixel L "yref" img "y" (some (img.sizey * (1 / 2))) true ∧
        b.height = osub (mapAROCoordToPixel L "yref" img "y" (some (-img.sizey * (1 / 2))) true)
          (mapAROCoordToPixel L "yref" img "y" (some (img.sizey * (1 / 2))) true)))) ∧
    (¬(img.xanchor = "left" ∨ img.xanchor = "right" ∨ img.xanchor = "center") →
      imageToBBox L img = Except.error ("Bad xanchor: " ++ img.xanchor)) ∧
    ((img.xanchor = "left" ∨ img.xanchor = "right" ∨ img.xanchor = "center") →
      ¬(img.yanchor = "bottom" ∨ img.yanchor = "top" ∨ img.yanchor = "middle") →
      imageToBBox L img = Except.error ("Bad yanchor: " ++ img.yanchor)) := by
  refine ⟨?_, ?_, ?_⟩
  · intro b hb
    rcases imageToBBox_ok L img b hb with ⟨xp, yp, hx, hy, rfl⟩
    refine ⟨fun ha => ?_, fun ha => ?_, fun ha => ?_, fun ha => ?_, fun ha => ?_,
      fun ha => ?_⟩
    · unfold imageXPair at hx
      rw [if_pos (by simp [ha])] at hx
      cases hx
      exact ⟨rfl, rfl⟩
    · unfold imageXPair at hx
      rw [if_neg (by simp [ha]), if_pos (by simp [ha])] at hx
      cases hx
      exact ⟨rfl, rfl⟩
    · unfold imageXPair at hx
      rw [if_neg (by simp [ha]), if_neg (by simp [ha]), if_pos (by simp [ha])] at hx
      cases hx
      exact ⟨rfl, rfl⟩
    · unfold imageYPair at hy
      rw [if_pos (by simp [ha])] at hy
      cases hy
      exact ⟨rfl, rfl⟩
    · unfold imageYPair at hy
      rw [if_neg (by simp [ha]), if_pos (by simp [ha])] at hy
      cases hy
      exact ⟨rfl, rfl⟩
    · unfold imageYPair at hy
      rw [if_neg (by simp [ha]), if_neg (by simp [ha]), if_pos (by simp [ha])] at hy
      cases hy
      exact ⟨rfl, rfl⟩
  · intro hbad
    push_neg at hbad
    unfold imageToBBox
    simp [imageXPair, hbad.1, hbad.2.1, hbad.2.2, beq_iff_eq]
  · intro hgood hbad
    push_neg at hbad
    unfold imageToBBox
    rcases hgood with h | h | h <;>
      simp [imageXPair, imageYPair, h, hbad.1, hbad.2.1, hbad.2.2, beq_iff_eq]

/-- Witness for the amended C3 at the concrete left-and-top image: the
box's x is the mapping of the stored x with no offset. -/
theorem imageToBBox_anchor_edges_witness :
    cexBBoxLeft.x = mapAROCoordToPixel cexLayout "xref" cexImage "x" none true :=
  ((((imageToBBox_anchor_edges cexLayout cexImage).1 cexBBoxLeft imageToBBox_cexLeft).1) rfl).1

theorem mapARO_xanchor_irrel (L : LayoutModel) (axref : String) (s : String) (img : ARO)
    (c : String) (offset : Option Rat) (nolog : Bool) :
    mapAROCoordToPixel L axref { img with xanchor := s } c offset nolog =
      mapAROCoordToPixel L axref img c offset nolog := rfl

theorem mapARO_offset_affine (L : LayoutModel) (axref : String) (aro : ARO) (c : String)
    (d : Rat) :
    mapAROCoordToPixel L axref aro c none true =
      oadd (mapAROCoordToPixel L axref aro c (some (-d)) true)
        (osub (mapAROCoordToPixel L axref aro c (some d) true)
          (mapAROCoordToPixel L axref aro c none true)) := by
  unfold mapAROCoordToPixel
  cases getRefType (getRefStr aro axref) with
  | range =>
    cases lookupAxis L (refAxisId (getRefStr aro axref)) with
    | none => rfl
    | some ax =>
      by_cases hl : ax.letter = 'y' <;>
        simp [oadd, osub, mapRangeToPixel, mapDomainToPixel, fracToPixel, beq_iff_eq, hl] <;>
        ring
  | domain =>
    cases lookupAxis L (refAxisId (getRefStr aro axref)) with
    | none => rfl
    | some ax =>
      by_cases hl : ax.letter = 'y' <;>
        simp [oadd, osub, mapDomainToPixel, fracToPixel, beq_iff_eq, hl] <;>
        ring
  | paper =>
    by_cases hl : axref.data.head?.getD 'x' = 'y' <;>
      simp [oadd, osub, mapPaperToPixel, fracToPixel, beq_iff_eq, hl] <;>
      ring
  | pixel => rfl

/-- Claim C6 as amended: for an image with positive sizex, the x of the
left-anchored bounding box equals the x of the center-anchored bounding
box PLUS the mapped-pixel equivalent of sizex/2 (the signed pixel extent
of offsetting the stored x by sizex/2), not minus as the claim stated:
the center anchor moves the left edge back by half the size, so the left
anchored edge sits half a size further along the axis. -/
theorem image_left_center_offset (L : LayoutModel) (img : ARO) (hpos : 0 < img.sizex) :
    ∀ bl bc, imageToBBox L { img with xanchor := "left" } = Except.ok bl →
      imageToBBox L { img with xanchor := "center" } = Except.ok bc →
      bl.x = oadd bc.x
        (osub (mapAROCoordToPixel L "xref" img "x" (some (img.sizex * (1 / 2))) true)
          (mapAROCoordToPixel L "xref" img "x" none true)) := by
  clear hpos
  intro bl bc hbl hbc
  rcases imageToBBox_ok L { img with xanchor := "left" } bl hbl with ⟨xpl, ypl, hxl, hyl, rfl⟩
  rcases imageToBBox_ok L { img with xanchor := "center" } bc hbc with ⟨xpc, ypc, hxc, hyc, rfl⟩
  unfold imageXPair at hxl hxc
  rw [if_pos (by simp)] at hxl
  rw [if_neg (by simp), if_neg (by simp), if_pos (by simp)] at hxc
  cases hxl
  cases hxc
  simp only [mapARO_xanchor_irrel]
  rw [show ({ img with xanchor := "center" } : ARO).sizex = img.sizex from rfl]
  rw [show -img.sizex * (1 / 2) = -(img.sizex * (1 / 2)) from by ring]
  exact mapARO_offset_affine L "xref" img "x" (img.sizex * (1 / 2))

/-- Counterexample to claim C6 as stated: at the concrete image the
left-anchored box's x is pixel 250, while the center-anchored box's x
minus the mapped-pixel equivalent of sizex/2 is 200 minus 50, pixel
150. -/
theorem image_left_center_counterexample :
    Except.map OBBox.x (imageToBBox cexLayout { cexImage with xanchor := "left" }) ≠
      Except.map (fun b => osub b.x
          (osub (mapAROCoordToPixel cexLayout "xref" cexImage "x"
              (some (cexImage.sizex * (1 / 2))) true)
            (mapAROCoordToPixel cexLayout "xref" cexImage "x" none true)))
        (imageToBBox cexLayout { cexImage with xanchor := "center" }) := by
  have h1 : imageToBBox cexLayout { cexImage with xanchor := "left" } =
      Except.ok cexBBoxLeft := by
    rw [show ({ cexImage with xanchor := "left" } : ARO) = cexImage from rfl]
    exact imageToBBox_cexLeft
  rw [h1, imageToBBox_cexCenter]
  simp [Except.map, cexBBoxLeft, cexBBoxCenter, osub, mapAROCoordToPixel, getRefStr,
    getCoord, cexImage, getRefType_x, refAxisId_x, lookupAxis, cexLayout, List.find?,
    mapRangeToPixel, mapDomainToPixel, fracToPixel]
  norm_num

/-- Witness for the amended C6 at the concrete image: 250 equals 200
plus the 50-pixel equivalent of half the size. -/
theorem image_left_center_offset_witness :
    cexBBoxLeft.x = oadd cexBBoxCenter.x
        (osub (mapAROCoordToPixel cexLayout "xref" cexImage "x"
            (some (cexImage.sizex * (1 / 2))) true)
          (mapAROCoordToPixel cexLayout "xref" cexImage "x" none true)) :=
  image_left_center_offset cexLayout cexImage (by norm_num [cexImage]) cexBBoxLeft
    cexBBoxCenter
    (by
      rw [show ({ cexImage with xanchor := "left" } : ARO) = cexImage from rfl]
      exact imageToBBox_cexLeft)
    imageToBBox_cexCenter

theorem annotationArrowXPixelMode_iff (anno : ARO) :
    annotationArrowXPixelMode anno = true ↔
      (getRefType anno.axref = RefType.pixel ∨
        getRefType anno.axref ≠ getRefType anno.xref) := by
  simp [annotationArrowXPixelMode]

theorem annotationArrowYPixelMode_iff (anno : ARO) :
    annotationArrowYPixelMode anno = true ↔
      (getRefType anno.ayref = RefType.pixel ∨
        getRefType anno.ayref ≠ getRefType anno.yref) := by
  simp [annotationArrowYPixelMode]

/-- Claim C4: the arrow endpoint on each axis is a pixel-relative delta
from the mapped anchor exactly when that axis's arrow reference
classifies as pixel or its kind differs from the position reference's
kind, and an absolute coordinate in the position's reference system
otherwise; the decision is made independently for the x and the y arrow;
and the endpoint never depends on the log preparation of the arrow value
when the arrow reference is the pixel literal. -/
theorem annotation_arrow_modes (L : LayoutModel) (anno : ARO) (a : Rat)
    (hx : mapAROCoordToPixel L "xref" anno "x" (some 0) true = some a) :
    ((getRefType anno.axref = RefType.pixel ∨
        getRefType anno.axref ≠ getRefType anno.xref) →
      annotationArrowEndpointX L anno = some (a + anno.ax)) ∧
    (getRefType anno.axref ≠ RefType.pixel ∧
        getRefType anno.axref = getRefType anno.xref →
      annotationArrowEndpointX L anno =
        mapAROCoordToPixel L "xref" anno "ax" (some 0) true) ∧
    (∀ b, mapAROCoordToPixel L "yref" anno "y" (some 0) true = some b →
      ((getRefType anno.ayref = RefType.pixel ∨
          getRefType anno.ayref ≠ getRefType anno.yref) →
        annotationArrowEndpointY L anno = some (b + anno.ay)) ∧
      (getRefType anno.ayref ≠ RefType.pixel ∧
          getRefType anno.ayref = getRefType anno.yref →
        annotationArrowEndpointY L anno =
          mapAROCoordToPixel L "yref" anno "ay" (some 0) true)) ∧
    (∀ s t, annotationArrowXPixelMode { anno with ayref := s, yref := t } =
      annotationArrowXPixelMode anno) ∧
    (∀ s t, annotationArrowYPixelMode { anno with axref := s, xref := t } =
      annotationArrowYPixelMode anno) ∧
    (getRefType anno.axref = RefType.pixel →
      ∀ lg xt yt, (annotationLogPrep lg xt yt anno).ax = anno.ax) := by
  refine ⟨?_, ?_, ?_, fun s t => rfl, fun s t => rfl, ?_⟩
  · intro hmode
    unfold annotationArrowEndpointX annotationArrowXPixels
    rw [if_pos ((annotationArrowXPixelMode_iff anno).2 hmode), hx]
    rfl
  · intro hmode
    have hm : ¬(annotationArrowXPixelMode anno = true) := fun hmm =>
      ((annotationArrowXPixelMode_iff anno).1 hmm).elim hmode.1 (fun hne => hne hmode.2)
    unfold annotationArrowEndpointX annotationArrowXPixels
    rw [if_neg hm, hx]
    cases hax : mapAROCoordToPixel L "xref" anno "ax" (some 0) true with
    | none => rfl
    | some mv =>
      simp [oadd, osub]
  · intro b hy
    constructor
    · intro hmode
      unfold annotationArrowEndpointY annotationArrowYPixels
      rw [if_pos ((annotationArrowYPixelMode_iff anno).2 hmode), hy]
      rfl
    · intro hmode
      have hm : ¬(annotationArrowYPixelMode anno = true) := fun hmm =>
        ((annotationArrowYPixelMode_iff anno).1 hmm).elim hmode.1 (fun hne => hne hmode.2)
      unfold annotationArrowEndpointY annotationArrowYPixels
      rw [if_neg hm, hy]
      cases hay : mapAROCoordToPixel L "yref" anno "ay" (some 0) true with
      | none => rfl
      | some mv =>
        simp [oadd, osub]
  · intro hpix lg xt yt
    simp [annotationLogPrep, hpix, beq_iff_eq]

/-- Witness for C4 at the concrete annotation with axref the pixel
literal and ax 25: the expected arrow endpoint is the mapped anchor
pixel 250 plus 25. -/
theorem annotation_arrow_modes_witness :
    annotationArrowEndpointX cexLayout cexAnno = some (250 + cexAnno.ax) :=
  (annotation_arrow_modes cexLayout cexAnno 250 (by
      simp [mapAROCoordToPixel, getRefStr, getCoord, cexAnno, getRefType_x, refAxisId_x,
        lookupAxis, cexLayout, List.find?, mapRangeToPixel, mapDomainToPixel, fracToPixel]
      norm_num)).1
    (Or.inl (by decide))
